import Mathlib

/-!
Verification development for the tiered metadata-tamper analysis engine of
the AI-AVER project (src/metadata-analyzer.py and src/ai_integrations.py).

The engine is shallowly embedded: metadata records are association lists of
namespaced tag names to values, the knowledge base is an association list of
profiles, each analysis tier is a pure function returning its escalation flag
and its findings, and `analyze` composes them exactly as the Python does.
Python string operations are modelled characterwise over ASCII input (the
only alphabet the engine's tag names, keywords and timestamps use); the
dynamic interpolations that embed `datetime` reprs or match percentages into
reason strings are abbreviated to their static skeleton, since no property
below depends on them.  Caught Python exceptions (ValueError/TypeError in the
timestamp and quantization-table parsers) are modelled by `Option`; the one
exception the code does not catch is modelled by `Except Unit`.
-/

namespace AverMeta

/-- ASCII lowercase of one character (Python `str.lower` on ASCII input). -/
def lowerChar (c : Char) : Char :=
  if 65 ≤ c.toNat ∧ c.toNat ≤ 90 then Char.ofNat (c.toNat + 32) else c

/-- Characterwise lowercase of a string. -/
def lowerStr (s : String) : String := String.mk (s.data.map lowerChar)

/-- Python substring test `pat in hay`, over character lists. -/
def containsL (pat : List Char) : List Char → Bool
  | [] => decide (pat = [])
  | c :: rest => pat.isPrefixOf (c :: rest) || containsL pat rest

/-- Python substring test `pat in hay` on strings. -/
def containsS (hay pat : String) : Bool := containsL pat.data hay.data

/-- Python `hay.endswith(pat)`. -/
def endsWithS (hay pat : String) : Bool := pat.data.isSuffixOf hay.data

/-- Python `str.replace`, structurally: `skip` counts characters of a
matched occurrence still to be consumed; at `skip = 0` the scanner either
matches `pat` here (emitting `repl` and skipping the match) or copies one
character.  Replacement scans left to right without rescanning. -/
def replaceGo (pat repl : List Char) : Nat → List Char → List Char
  | _, [] => []
  | Nat.succ k, _ :: rest => replaceGo pat repl k rest
  | 0, c :: rest =>
    if pat.isPrefixOf (c :: rest) ∧ pat ≠ [] then
      repl ++ replaceGo pat repl (pat.length - 1) rest
    else
      c :: replaceGo pat repl 0 rest

/-- Python `str.replace`: replace every occurrence of `pat` by `repl`. -/
def replaceL (pat repl : List Char) (l : List Char) : List Char :=
  replaceGo pat repl 0 l

/-- Python `s.replace(pat, repl)` on strings. -/
def replaceS (s pat repl : String) : String :=
  String.mk (replaceL pat.data repl.data s.data)

/-- Python `s.split(sep)[0]` for a one-character separator. -/
def takeUntil (sep : Char) (l : List Char) : List Char :=
  l.takeWhile (fun c => c ≠ sep)

/-- Python no-argument `str.split`: split on whitespace runs, no empties. -/
def splitWsAux : List Char → List Char → List (List Char)
  | [], acc => if acc = [] then [] else [acc.reverse]
  | c :: rest, acc =>
    if c.isWhitespace then
      if acc = [] then splitWsAux rest [] else acc.reverse :: splitWsAux rest []
    else splitWsAux rest (c :: acc)

def splitWs (l : List Char) : List (List Char) := splitWsAux l []

/-- Python `x.isdigit()` for an ASCII token. -/
def isDigitsL (l : List Char) : Bool := decide (l ≠ []) && l.all Char.isDigit

/-- Python `int(x)` for an all-digit token. -/
def natOfDigits (l : List Char) : Nat := l.foldl (fun n c => n * 10 + (c.toNat - 48)) 0

/-- Python `", ".join(xs)`. -/
def joinCommaSp (xs : List String) : String :=
  String.mk (List.intercalate [',', ' '] (xs.map String.data))

/-- A parsed `datetime.datetime` value (whole seconds: the engine's parse
discards any sub-second suffix before `strptime`). -/
structure PyDateTime where
  year : Nat
  month : Nat
  day : Nat
  hour : Nat
  minute : Nat
  second : Nat
  deriving DecidableEq

def isLeap (y : Nat) : Bool := (y % 4 = 0 && y % 100 ≠ 0) || y % 400 = 0

def daysInMonth (y m : Nat) : Nat :=
  if m = 2 then (if isLeap y then 29 else 28)
  else if m = 4 ∨ m = 6 ∨ m = 9 ∨ m = 11 then 30 else 31

/-- Days since 1970-01-01 in the proleptic Gregorian calendar
(standard civil-from-days arithmetic, as `datetime` subtraction uses). -/
def daysFromCivil (y m d : Int) : Int :=
  let y2 := if m ≤ 2 then y - 1 else y
  let era := (if 0 ≤ y2 then y2 else y2 - 399) / 400
  let yoe := y2 - era * 400
  let mp := (m + 9) % 12
  let doy := (153 * mp + 2) / 5 + d - 1
  let doe := yoe * 365 + yoe / 4 - yoe / 100 + doy
  era * 146097 + doe - 719468

/-- Absolute seconds of a datetime; differences of `tsSecs` model
`(a - b).total_seconds()` on whole-second datetimes. -/
def tsSecs (t : PyDateTime) : Int :=
  daysFromCivil t.year t.month t.day * 86400 +
    t.hour * 3600 + t.minute * 60 + t.second

/-- Numeric value of an ASCII digit. -/
def dv (c : Char) : Nat := c.toNat - 48

/-- Modelled `datetime.strptime(s, "%Y:%m:%d %H:%M:%S")`: accepts the
canonical zero-padded form and validates calendar ranges as `datetime`
construction does; any other string fails (ValueError). -/
def parseTsCore : List Char → Option PyDateTime
  | [y1, y2, y3, y4, ':', o1, o2, ':', d1, d2, ' ', h1, h2, ':', i1, i2, ':', s1, s2] =>
    if [y1, y2, y3, y4, o1, o2, d1, d2, h1, h2, i1, i2, s1, s2].all Char.isDigit then
      let y := dv y1 * 1000 + dv y2 * 100 + dv y3 * 10 + dv y4
      let mo := dv o1 * 10 + dv o2
      let d := dv d1 * 10 + dv d2
      let h := dv h1 * 10 + dv h2
      let mi := dv i1 * 10 + dv i2
      let s := dv s1 * 10 + dv s2
      if 1 ≤ y ∧ 1 ≤ mo ∧ mo ≤ 12 ∧ 1 ≤ d ∧ d ≤ daysInMonth y mo ∧
         h ≤ 23 ∧ mi ≤ 59 ∧ s ≤ 59 then
        some ⟨y, mo, d, h, mi, s⟩
      else none
    else none
  | _ => none

/-- The internal-timestamp parse of Level 1 and Level 2:
`datetime.strptime(s.split('+')[0].split('.')[0], '%Y:%m:%d %H:%M:%S')`. -/
def parseExifTs (s : String) : Option PyDateTime :=
  parseTsCore (takeUntil '.' (takeUntil '+' s.data))

/-- The file-system-timestamp parse of Level 1:
`datetime.strptime(s.split('+')[0].split('-')[0].split('.')[0], ...)`. -/
def parseFsTs (s : String) : Option PyDateTime :=
  parseTsCore (takeUntil '.' (takeUntil '-' (takeUntil '+' s.data)))

/-! ## Data model: metadata records, findings, profiles, knowledge base -/

/-- An element of a JSON-array metadata value, as the quantization-table tag
can carry: an integer or a row of integers. -/
inductive QTItem where
  | qint : Int → QTItem
  | qrow : List Int → QTItem
  deriving DecidableEq

/-- A metadata value: a string (every tag the engine reads as text) or a
JSON array (the representation exiftool can use for `EXIF:JPEGQTables`). -/
inductive MVal where
  | mstr : String → MVal
  | mlist : List QTItem → MVal
  deriving DecidableEq

/-- A metadata record: the flat mapping from namespaced tag name to value
produced by extraction, with the dict's key order. -/
abbrev Metadata := List (String × MVal)

def mval (m : Metadata) (k : String) : Option MVal :=
  (m.find? (fun e => e.1 == k)).map (fun e => e.2)

/-- `self.metadata.get(k)` where the engine treats the result as a string. -/
def mgetStr (m : Metadata) (k : String) : Option String :=
  match mval m k with
  | some (MVal.mstr s) => some s
  | _ => none

def mkeys (m : Metadata) : List String := m.map (fun e => e.1)

/-- Python truthiness of `dict.get`'s result: `None` and `""` are falsy. -/
def pyTruthy : Option String → Bool
  | none => false
  | some s => decide (s ≠ "")

/-- Python `a or b` on tag-lookup results. -/
def pyOr (a b : Option String) : Option String := if pyTruthy a then a else b

def strVal (a : Option String) : String := a.getD ""

instance instDecEqExcept {e a : Type} [DecidableEq e] [DecidableEq a] :
    DecidableEq (Except e a)
  | Except.error e1, Except.error e2 =>
    match decEq e1 e2 with
    | isTrue h => isTrue (h ▸ rfl)
    | isFalse h => isFalse (fun hc => h (by injection hc))
  | Except.error e1, Except.ok a2 => isFalse (fun hc => Except.noConfusion hc)
  | Except.ok a1, Except.error e2 => isFalse (fun hc => Except.noConfusion hc)
  | Except.ok a1, Except.ok a2 =>
    match decEq a1 a2 with
    | isTrue h => isTrue (h ▸ rfl)
    | isFalse h => isFalse (fun hc => h (by injection hc))

/-- One entry of the forensic narrative. `reason` also stands for the
`details` key used by levels 2-4. -/
structure Finding where
  level : Nat
  status : String
  finding : String
  reason : String
  deriving DecidableEq

def swFinding (tag : String) : Finding :=
  ⟨1, "FLAGGED", "Third-party software tag detected.",
    "The Software tag is " ++ tag ++ ", indicating processing by external software."⟩

def mismatchFinding : Finding :=
  ⟨1, "FLAGGED", "Significant timestamp mismatch.",
    "File ModifyDate is significantly later than its CreateDate."⟩

def orderFinding : Finding :=
  ⟨1, "FLAGGED", "Illogical timestamp order.",
    "File ModifyDate is earlier than its CreateDate, which is highly suspicious."⟩

def fsDiscrepancyFinding : Finding :=
  ⟨1, "FLAGGED", "File system modification date discrepancy.",
    "File system modification date is significantly different from internal CreateDate, which might indicate copying or external modification."⟩

def cleanFinding : Finding :=
  ⟨1, "CLEAN", "High confidence of being an unaltered camera original.",
    "No third-party software tags or significant timestamp mismatches found."⟩

def unknownDeviceFinding (display : String) : Finding :=
  ⟨2, "UNKNOWN_DEVICE", "Cannot perform knowledge-based check.",
    "Device model " ++ display ++ " not found in the knowledge base."⟩

def codecMismatchFinding (codecId model expected : String) : Finding :=
  ⟨2, "INCONSISTENCY_DETECTED", "Video codec mismatch.",
    "File uses codec ID " ++ codecId ++ ", but a camera-original " ++ model ++
      " is expected to use " ++ expected ++ "."⟩

def codecMissingFinding (model : String) : Finding :=
  ⟨2, "INCONSISTENCY_DETECTED", "Video codec missing from metadata.",
    "A video codec is expected from a " ++ model ++ ", but no codec ID found in metadata."⟩

def missingTagsFinding (model : String) (listed : List String) : Finding :=
  ⟨2, "INCONSISTENCY_DETECTED", "Expected metadata tags are missing.",
    "File is missing critical tags expected from a " ++ model ++ ", such as: " ++
      joinCommaSp listed ++ ". This often occurs after re-encoding or social media sharing."⟩

def majorFinding (model : String) : Finding :=
  ⟨2, "MAJOR_DISCREPANCY_DETECTED", "File created before device release.",
    "Files creation year is before the known release year of the " ++ model ++
      ". This is a massive red flag."⟩

def confirmationFinding (softwareName : String) : Finding :=
  ⟨3, "CONFIRMATION", "Low-level software fingerprint detected.",
    "JPEG quantization tables are highly consistent with " ++ softwareName ++ " software."⟩

def kbCandidateFinding (model : String) : Finding :=
  ⟨4, "KNOWLEDGE_BASE_CANDIDATE", "New device model identified.",
    "The device model " ++ model ++ " is not in the knowledge base. It is a candidate for AI enrichment."⟩

def kbReviewFinding (model : String) : Finding :=
  ⟨4, "KNOWLEDGE_BASE_REVIEW_CANDIDATE", "Existing device profile for review/enrichment.",
    "Analysis of this file for " ++ model ++ " can potentially contribute new information to the knowledge base, improving future analyses."⟩

/-- A knowledge-base profile as the analyzer reads it.  `ptype` is the
profile's `type` field; `jpeg_quantization_tables` is the value of
`profile['fingerprints']['jpeg_quantization_tables']['tables']` when that
whole chain is present, `none` when any link of it is absent. -/
structure Profile where
  release_year : Option Int := none
  video_codec_default : Option String := none
  expected_metadata_tags : List String := []
  ptype : Option String := none
  jpeg_quantization_tables : Option (List (List Int)) := none
  deriving DecidableEq

/-- The knowledge base: canonical name to profile, in the JSON file's order. -/
abbrev KB := List (String × Profile)

def kbLookup (kb : KB) (name : String) : Option Profile :=
  (kb.find? (fun e => e.1 == name)).map (fun e => e.2)

/-! ## Tier 1 - integrity check -/

def knownEditors : List String := ["adobe", "gimp", "final cut", "premiere pro", "photoshop"]

/-- `metadata.get('EXIF:Software') or metadata.get('XMP:CreatorTool')`. -/
def swAliasOf (m : Metadata) : Option String :=
  pyOr (mgetStr m "EXIF:Software") (mgetStr m "XMP:CreatorTool")

def createStrOf (m : Metadata) : Option String :=
  pyOr (mgetStr m "EXIF:CreateDate") (mgetStr m "QuickTime:CreateDate")

def modifyStrOf (m : Metadata) : Option String :=
  pyOr (mgetStr m "EXIF:ModifyDate") (mgetStr m "QuickTime:ModifyDate")

def fileModStrOf (m : Metadata) : Option String := mgetStr m "File:FileModifyDate"

/-- The editing-software check of Level 1. -/
def level1Software (m : Metadata) : List Finding :=
  if pyTruthy (swAliasOf m) ∧
     knownEditors.any (fun e => containsS (lowerStr (strVal (swAliasOf m))) e) then
    [swFinding (strVal (swAliasOf m))]
  else []

/-- The create/modify comparison inside Level 1's `try` block.  `none`
models a ValueError escaping from `strptime` (caught by the enclosing
handler); on success it carries the findings appended so far, the flag,
and the parsed create date when the comparison ran (`'create_date' in
locals()` in the source). -/
def level1Step1 (createStr modifyStr : Option String) :
    Option (List Finding × Bool × Option PyDateTime) :=
  if pyTruthy createStr && pyTruthy modifyStr then
    match parseExifTs (strVal createStr) with
    | none => none
    | some cd =>
      match parseExifTs (strVal modifyStr) with
      | none => none
      | some md =>
        if tsSecs md - tsSecs cd > 60 then some ([mismatchFinding], true, some cd)
        else if tsSecs md < tsSecs cd then some ([orderFinding], true, some cd)
        else some ([], false, some cd)
  else some ([], false, none)

/-- The second half of Level 1's `try` block: the file-system discrepancy
check, continuing from the create/modify comparison's findings `fs1`, flag
`fl1` and parsed create date `cdOpt`.  A ValueError in the file-system
parse aborts here, keeping what was already appended. -/
def level1Block2 (createStr fileModStr : Option String) (fs1 : List Finding)
    (fl1 : Bool) (cdOpt : Option PyDateTime) : List Finding × Bool :=
  if pyTruthy fileModStr && pyTruthy createStr then
    match parseFsTs (strVal fileModStr) with
    | none => (fs1, fl1)
    | some fsd =>
      match cdOpt with
      | some cd =>
        if 86400 < (tsSecs fsd - tsSecs cd).natAbs then
          (fs1 ++ [fsDiscrepancyFinding], true)
        else (fs1, fl1)
      | none => (fs1, fl1)
  else (fs1, fl1)

/-- Level 1's whole `try` block: the create/modify comparison followed by
the file-system discrepancy check.  An exception anywhere in the block
aborts the rest of it, keeping the findings already appended. -/
def level1TryBlock (createStr modifyStr fileModStr : Option String) :
    List Finding × Bool :=
  match level1Step1 createStr modifyStr with
  | none => ([], false)
  | some (fs1, fl1, cdOpt) => level1Block2 createStr fileModStr fs1 fl1 cdOpt

/-- `_run_level_1_integrity_check`: returns `(is_flagged, findings)`. -/
def runLevel1 (m : Metadata) : Bool × List Finding :=
  let sw := level1Software m
  let blk := level1TryBlock (createStrOf m) (modifyStrOf m) (fileModStrOf m)
  let flagged := decide (sw ≠ []) || blk.2
  (flagged, sw ++ blk.1 ++ (if flagged then [] else [cleanFinding]))

/-! ## Tier 2 - knowledge-based analysis -/

/-- `metadata.get('EXIF:Model') or metadata.get('QuickTime:Model')`. -/
def modelAlias (m : Metadata) : Option String :=
  pyOr (mgetStr m "EXIF:Model") (mgetStr m "QuickTime:Model")

/-- Level 2's device-profile resolution: normalize the model by stripping
the vendor prefixes, look the normalized name up, fall back to the raw
name; `None` when the model tag is falsy or neither name is present. -/
def resolveProfile (kb : KB) (m : Metadata) : Option Profile :=
  if pyTruthy (modelAlias m) then
    let raw := strVal (modelAlias m)
    let normalized := replaceS (replaceS raw "Apple " "") "Google " ""
    if normalized ≠ "" ∧ (kbLookup kb normalized).isSome then kbLookup kb normalized
    else if (kbLookup kb raw).isSome then kbLookup kb raw
    else none
  else none

/-- Level 2's codec-consistency check (videos only). -/
def level2Codec (p : Profile) (m : Metadata) (modelRaw : String) :
    List Finding × Bool :=
  let codecId := mgetStr m "QuickTime:CompressorID"
  let mime := mgetStr m "File:MIMEType"
  let expected := lowerStr ((p.video_codec_default).getD "")
  if pyTruthy mime ∧ containsS (strVal mime) "video" then
    if expected ≠ "" ∧ pyTruthy codecId then
      if containsS expected "hevc" ∧
         ¬ (lowerStr (strVal codecId) = "hev1" ∨ lowerStr (strVal codecId) = "hvc1") then
        ([codecMismatchFinding (strVal codecId) modelRaw expected], true)
      else if containsS expected "h.264/avc" ∧
         ¬ (lowerStr (strVal codecId) = "avc1" ∨ lowerStr (strVal codecId) = "mp4v") then
        ([codecMismatchFinding (strVal codecId) modelRaw expected], true)
      else ([], false)
    else if expected ≠ "" ∧ ¬ pyTruthy codecId then
      ([codecMissingFinding modelRaw], true)
    else ([], false)
  else ([], false)

/-- The expected tags of the profile that no metadata key ends with (the
`:<tag>` suffix comparison is case-insensitive). -/
def missingTags (p : Profile) (m : Metadata) : List String :=
  p.expected_metadata_tags.filter (fun tag =>
    ! (mkeys m).any (fun k => endsWithS (lowerStr k) (":" ++ lowerStr tag)))

/-- Level 2's release-year plausibility check. -/
def level2Date (p : Profile) (m : Metadata) (modelRaw : String) :
    List Finding × Bool :=
  let cds := pyOr (mgetStr m "EXIF:CreateDate") (mgetStr m "QuickTime:CreateDate")
  if pyTruthy cds ∧ (p.release_year).isSome then
    match parseExifTs (strVal cds) with
    | some dt =>
      if (dt.year : Int) < (p.release_year).getD 0 then ([majorFinding modelRaw], true)
      else ([], false)
    | none => ([], false)
  else ([], false)

/-- `_run_level_2_knowledge_based_analysis`: `(is_inconsistent, findings)`. -/
def runLevel2 (kb : KB) (m : Metadata) : Bool × List Finding :=
  match resolveProfile kb m with
  | none =>
    (false, [unknownDeviceFinding
      (if pyTruthy (modelAlias m) then strVal (modelAlias m) else "N/A")])
  | some p =>
    let raw := strVal (modelAlias m)
    let c := level2Codec p m raw
    let mt := missingTags p m
    let t : List Finding × Bool :=
      if mt.length > 2 then ([missingTagsFinding raw (mt.take 3)], true) else ([], false)
    let d := level2Date p m raw
    (c.2 || t.2 || d.2, c.1 ++ t.1 ++ d.1)

/-! ## Tier 3 - heuristic fingerprint confirmation -/

def qtTruthy : MVal → Bool
  | MVal.mstr s => decide (s ≠ "")
  | MVal.mlist l => decide (l ≠ [])

/-- The flatten of the else branch,
`[item for sublist in jpeg_qt_tag for item in sublist]`: iterating over an
integer element raises TypeError (`none`). -/
def flattenQT : List QTItem → Option (List Int)
  | [] => some []
  | QTItem.qrow ns :: rest => (flattenQT rest).map (fun t => ns ++ t)
  | QTItem.qint _ :: _ => none

/-- `[int(x) for x in jpeg_qt_tag.replace(',', ' ').split() if x.strip().isdigit()]`. -/
def parseQTString (s : String) : List Int :=
  ((splitWs ((s.data).map (fun c => if c = ',' then ' ' else c))).filter
    isDigitsL).map (fun l => (natOfDigits l : Int))

/-- The table normalization of Level 3. `none` models a caught exception
(the TypeError of flattening a mixed list). -/
def qtValues : MVal → Option (List Int)
  | MVal.mstr s => some (parseQTString s)
  | MVal.mlist items =>
    if items.all (fun i => match i with | QTItem.qint _ => true | _ => false) then
      some (items.map (fun i => match i with | QTItem.qint n => n | _ => 0))
    else if items.any (fun i => match i with | QTItem.qrow _ => true | _ => false) then
      flattenQT items
    else some []

/-- `sum(1 for a, b in zip(xs, ys) if a == b)`. -/
def countEqual : List Int → List Int → Nat
  | a :: as, b :: bs => (if a = b then 1 else 0) + countEqual as bs
  | _, _ => 0

/-- The fingerprint scan over the knowledge base, in dict order, stopping
at the first strong match.  `Except.error ()` is the ZeroDivisionError the
`except (ValueError, TypeError)` handler does not catch: it occurs exactly
when the file table and a truthy template both flatten to length 0, since
`match_percentage` divides by `len(qt_values)` whenever the lengths agree. -/
def scanFingerprints (qt : List Int) : KB → Except Unit (List Finding)
  | [] => Except.ok []
  | (name, p) :: rest =>
    match p.ptype, p.jpeg_quantization_tables with
    | some t, some tables =>
      if t = "Software" ∧ tables ≠ [] then
        let flat := tables.flatten
        if qt.length = flat.length then
          if qt.length = 0 then Except.error ()
          else
            let mp : ℚ := (countEqual qt flat : ℚ) / (qt.length : ℚ) * 100
            if mp > 95 then Except.ok [confirmationFinding name]
            else scanFingerprints qt rest
        else scanFingerprints qt rest
      else scanFingerprints qt rest
    | _, _ => scanFingerprints qt rest

/-- `_run_level_3_advanced_heuristics` (JPEG-family files only). -/
def runLevel3 (kb : KB) (m : Metadata) (suffix : String) : Except Unit (List Finding) :=
  if lowerStr suffix = ".jpg" ∨ lowerStr suffix = ".jpeg" then
    match mval m "EXIF:JPEGQTables" with
    | some tag =>
      if qtTruthy tag then
        match qtValues tag with
        | none => Except.ok []
        | some qt => scanFingerprints qt kb
      else Except.ok []
    | none => Except.ok []
  else Except.ok []

/-! ## Tier 4 - enrichment trigger -/

/-- `_run_level_4_ai_knowledge_base_enrichment`: looks the raw model tag up
(no vendor-prefix normalization happens in this method). -/
def runLevel4 (kb : KB) (m : Metadata) : List Finding :=
  if pyTruthy (modelAlias m) then
    if (kbLookup kb (strVal (modelAlias m))).isNone then
      [kbCandidateFinding (strVal (modelAlias m))]
    else [kbReviewFinding (strVal (modelAlias m))]
  else []

/-! ## Report assembly and the analyze entry point -/

inductive Report where
  | extractionError (error details : String)
  | success (forensic_narrative : List Finding) (full_metadata : Metadata)
      (level1_status : String) (overall_status : String)
  deriving DecidableEq

def isFlagStatus (f : Finding) : Bool :=
  f.status == "FLAGGED" || f.status == "INCONSISTENCY_DETECTED"

/-- The `overall_status` expression of `analyze`. -/
def overallStatus (nar : List Finding) : String :=
  if nar.any isFlagStatus then "FLAGGED" else "CLEAN"

/-- The findings of Tiers 2 and 3, as gated by `analyze`: Tier 2 only when
Tier 1 flagged, Tier 3 only when Tier 2 then reported an inconsistency. -/
def midFindings (kb : KB) (m : Metadata) (suffix : String) (l1flag : Bool) :
    Except Unit (List Finding) :=
  if l1flag then
    let l2 := runLevel2 kb m
    if l2.1 then (runLevel3 kb m suffix).map (fun l3 => l2.2 ++ l3)
    else Except.ok l2.2
  else Except.ok []

/-- `MetadataAnalyzer.analyze`.  `ext` is the metadata-extraction outcome
(the engine's only guarded step); `suffix` is `file_path.suffix`.  The
overall result is `Except Unit Report`: `Except.error ()` is an uncaught
exception escaping to the caller. -/
def analyze (kb : KB) (suffix : String) (ext : Except String Metadata) :
    Except Unit Report :=
  match ext with
  | Except.error e =>
    Except.ok (Report.extractionError "Could not extract metadata from file." e)
  | Except.ok m =>
    let l1 := runLevel1 m
    match midFindings kb m suffix l1.1 with
    | Except.error u => Except.error u
    | Except.ok mid =>
      let nar := l1.2 ++ mid ++ runLevel4 kb m
      Except.ok (Report.success nar m (if l1.1 then "FLAGGED" else "CLEAN")
        (overallStatus nar))

/-! ## Knowledge-base store: JSON-level load/merge (ai_integrations.py) -/

/-- A JSON value as the knowledge-base file stores profile fields. -/
inductive JVal where
  | jnull
  | jnum (n : Int)
  | jstr (s : String)
  | jarr (xs : List String)
  deriving DecidableEq

/-- A persisted profile: a JSON object in key order. -/
abbrev JProfile := List (String × JVal)

def pget : JProfile → String → Option JVal
  | [], _ => none
  | (k, v) :: rest, key => if k = key then some v else pget rest key

/-- Python dict assignment `d[key] = v`: replace in place or append. -/
def pset : JProfile → String → JVal → JProfile
  | [], key, v => [(key, v)]
  | (k, w) :: rest, key, v =>
    if k = key then (key, v) :: rest else (k, w) :: pset rest key v

/-- Python `prior.update(p)`: assign every field of `p`, in order,
null values included. -/
def dictUpdate (prior p : JProfile) : JProfile :=
  p.foldl (fun acc kv => pset acc kv.1 kv.2) prior

abbrev JKB := List (String × JProfile)

def jkbGet : JKB → String → Option JProfile
  | [], _ => none
  | (k, v) :: rest, key => if k = key then some v else jkbGet rest key

def jkbSet : JKB → String → JProfile → JKB
  | [], key, v => [(key, v)]
  | (k, w) :: rest, key, v =>
    if k = key then (key, v) :: rest else (k, w) :: jkbSet rest key v

/-- `update_knowledge_base` of ai_integrations.py: reload the persisted
knowledge base, merge or insert the profile, write it back.  The JSON file
round-trips the mapping, so the returned value is what a following
`_load_knowledge_base` reads. -/
def update_knowledge_base (kb : JKB) (name : String) (p : JProfile) : JKB :=
  match jkbGet kb name with
  | some prior => jkbSet kb name (dictUpdate prior p)
  | none => kb ++ [(name, p)]

/-- The merge the specification describes: overlay only the non-null
fields of `p` on the prior profile. -/
def specNonNullOverlay (prior p : JProfile) : JProfile :=
  (p.filter (fun kv => kv.2 ≠ JVal.jnull)).foldl (fun acc kv => pset acc kv.1 kv.2) prior

/-! ## Helper lemmas -/

theorem parseExifTs_nil : parseExifTs "" = none := by decide

theorem pyTruthy_of_parseExif {o : Option String} {d : PyDateTime}
    (h : parseExifTs (strVal o) = some d) : pyTruthy o = true := by
  match o with
  | none => exact absurd h (by simp [strVal, parseExifTs_nil])
  | some s =>
    by_cases hs : s = ""
    · subst hs; exact absurd h (by simp [strVal, parseExifTs_nil])
    · simp [pyTruthy, hs]

theorem level1Step1_shape (cs ms : Option String) :
    level1Step1 cs ms = none ∨
    (∃ c, level1Step1 cs ms = some ([], false, c)) ∨
    (∃ c, level1Step1 cs ms = some ([mismatchFinding], true, c)) ∨
    (∃ c, level1Step1 cs ms = some ([orderFinding], true, c)) := by
  unfold level1Step1
  repeat' split
  all_goals simp

theorem level1TryBlock_none (cs ms fs : Option String)
    (h : level1Step1 cs ms = none) : level1TryBlock cs ms fs = ([], false) := by
  unfold level1TryBlock
  rw [h]

theorem level1TryBlock_eq_of_step1 (cs ms fs : Option String)
    (fs1 : List Finding) (fl1 : Bool) (cdOpt : Option PyDateTime)
    (h : level1Step1 cs ms = some (fs1, fl1, cdOpt)) :
    level1TryBlock cs ms fs = level1Block2 cs fs fs1 fl1 cdOpt := by
  unfold level1TryBlock
  rw [h]

theorem level1Block2_cases (cs fs : Option String) (fs1 : List Finding)
    (fl1 : Bool) (cdOpt : Option PyDateTime) :
    level1Block2 cs fs fs1 fl1 cdOpt = (fs1, fl1) ∨
    level1Block2 cs fs fs1 fl1 cdOpt = (fs1 ++ [fsDiscrepancyFinding], true) := by
  unfold level1Block2
  repeat' split
  all_goals simp

theorem level1TryBlock_shape (cs ms fs : Option String) :
    level1TryBlock cs ms fs = ([], false) ∨
    level1TryBlock cs ms fs = ([mismatchFinding], true) ∨
    level1TryBlock cs ms fs = ([orderFinding], true) ∨
    level1TryBlock cs ms fs = ([fsDiscrepancyFinding], true) ∨
    level1TryBlock cs ms fs = ([mismatchFinding, fsDiscrepancyFinding], true) ∨
    level1TryBlock cs ms fs = ([orderFinding, fsDiscrepancyFinding], true) := by
  rcases level1Step1_shape cs ms with h | ⟨c, h⟩ | ⟨c, h⟩ | ⟨c, h⟩
  · exact Or.inl (level1TryBlock_none cs ms fs h)
  · rcases level1Block2_cases cs fs [] false c with h2 | h2 <;>
      rw [level1TryBlock_eq_of_step1 cs ms fs _ _ _ h, h2]
    · exact Or.inl rfl
    · exact Or.inr (Or.inr (Or.inr (Or.inl (by simp))))
  · rcases level1Block2_cases cs fs [mismatchFinding] true c with h2 | h2 <;>
      rw [level1TryBlock_eq_of_step1 cs ms fs _ _ _ h, h2]
    · exact Or.inr (Or.inl rfl)
    · exact Or.inr (Or.inr (Or.inr (Or.inr (Or.inl (by simp)))))
  · rcases level1Block2_cases cs fs [orderFinding] true c with h2 | h2 <;>
      rw [level1TryBlock_eq_of_step1 cs ms fs _ _ _ h, h2]
    · exact Or.inr (Or.inr (Or.inl rfl))
    · exact Or.inr (Or.inr (Or.inr (Or.inr (Or.inr (by simp)))))

theorem level1TryBlock_flag_iff (cs ms fs : Option String) :
    (level1TryBlock cs ms fs).2 = true ↔ (level1TryBlock cs ms fs).1 ≠ [] := by
  rcases level1TryBlock_shape cs ms fs with h | h | h | h | h | h <;> simp [h]

theorem level1TryBlock_mem (cs ms fs : Option String) (f : Finding)
    (h : f ∈ (level1TryBlock cs ms fs).1) :
    f = mismatchFinding ∨ f = orderFinding ∨ f = fsDiscrepancyFinding := by
  rcases level1TryBlock_shape cs ms fs with hs | hs | hs | hs | hs | hs <;>
    (rw [hs] at h; simp_all; try tauto)

theorem level1TryBlock_status (cs ms fs : Option String) (f : Finding)
    (h : f ∈ (level1TryBlock cs ms fs).1) : f.status = "FLAGGED" := by
  rcases level1TryBlock_mem cs ms fs f h with h1 | h1 | h1 <;> subst h1 <;> rfl

theorem level1Software_cases (m : Metadata) :
    level1Software m = [] ∨
    level1Software m = [swFinding (strVal (swAliasOf m))] := by
  unfold level1Software
  split <;> simp

theorem level1Step1_clean (cs ms : Option String)
    (h2 : ∀ cd md, parseExifTs (strVal cs) = some cd →
      parseExifTs (strVal ms) = some md →
      0 ≤ tsSecs md - tsSecs cd ∧ tsSecs md - tsSecs cd ≤ 60) :
    level1Step1 cs ms = none ∨
    ∃ c, level1Step1 cs ms = some ([], false, c) ∧
      (∀ cd, c = some cd → parseExifTs (strVal cs) = some cd) := by
  unfold level1Step1
  split
  · split
    · exact Or.inl rfl
    · rename_i cd hc
      split
      · exact Or.inl rfl
      · rename_i md hm
        have hb := h2 cd md hc hm
        rw [if_neg (by omega), if_neg (by omega)]
        exact Or.inr ⟨some cd, rfl, fun cd2 hcd2 => by cases hcd2; exact hc⟩
  · exact Or.inr ⟨none, rfl, fun cd hcd => by cases hcd⟩

theorem level1TryBlock_clean (cs ms fs : Option String)
    (h2 : ∀ cd md, parseExifTs (strVal cs) = some cd →
      parseExifTs (strVal ms) = some md →
      0 ≤ tsSecs md - tsSecs cd ∧ tsSecs md - tsSecs cd ≤ 60)
    (h3 : ∀ cd fsd, parseExifTs (strVal cs) = some cd →
      parseFsTs (strVal fs) = some fsd →
      (tsSecs fsd - tsSecs cd).natAbs ≤ 86400) :
    level1TryBlock cs ms fs = ([], false) := by
  rcases level1Step1_clean cs ms h2 with h | ⟨c, h, hlink⟩
  · exact level1TryBlock_none cs ms fs h
  · rw [level1TryBlock_eq_of_step1 cs ms fs _ _ _ h]
    unfold level1Block2
    split
    · split
      · rfl
      · rename_i fsd hf
        split
        · rename_i cd
          have hb3 := h3 cd fsd (hlink cd rfl) hf
          rw [if_neg (by omega)]
        · rfl
    · rfl

theorem pget_pset (pr : JProfile) (key k : String) (v : JVal) :
    pget (pset pr key v) k = if k = key then some v else pget pr k := by
  induction pr with
  | nil =>
    by_cases h : k = key
    · simp [pset, pget, h]
    · simp [pset, pget, h, Ne.symm h]
  | cons hd tl ih =>
    rcases hd with ⟨k0, v0⟩
    by_cases h0 : k0 = key
    · subst h0
      simp only [pset, if_pos rfl]
      by_cases h : k = k0
      · simp [pget, h]
      · simp [pget, h, Ne.symm h]
    · simp only [pset, if_neg h0]
      by_cases h1 : k0 = k
      · have hkey : ¬ k = key := fun hh => h0 (h1.trans hh)
        simp [pget, h1, hkey]
      · simp only [pget, if_neg h1]
        exact ih

theorem pget_eq_none (p : JProfile) (k : String) (h : k ∉ p.map Prod.fst) :
    pget p k = none := by
  induction p with
  | nil => rfl
  | cons hd tl ih =>
    rcases hd with ⟨k0, v0⟩
    simp only [List.map_cons, List.mem_cons, not_or] at h
    simp only [pget, if_neg (fun hh : k0 = k => h.1 hh.symm)]
    exact ih h.2

theorem pget_dictUpdate (p : JProfile) (hnd : (p.map Prod.fst).Nodup)
    (prior : JProfile) (k : String) :
    pget (dictUpdate prior p) k =
      match pget p k with
      | some v => some v
      | none => pget prior k := by
  induction p generalizing prior with
  | nil => simp [dictUpdate, pget]
  | cons hd tl ih =>
    rcases hd with ⟨k0, v0⟩
    simp only [List.map_cons, List.nodup_cons] at hnd
    have step : dictUpdate prior ((k0, v0) :: tl) = dictUpdate (pset prior k0 v0) tl := rfl
    rw [step, ih hnd.2 (pset prior k0 v0)]
    by_cases hk : k = k0
    · subst hk
      have hnone : pget tl k = none := pget_eq_none tl k hnd.1
      simp [pget, pget_pset, hnone]
    · have hk0 : ¬ k0 = k := fun hh => hk hh.symm
      cases hpt : pget tl k with
      | none => simp [pget, pget_pset, hk, hk0, hpt]
      | some v => simp [pget, hk0, hpt]

theorem jkbGet_append_self (kb : JKB) (name : String) (p : JProfile)
    (h : jkbGet kb name = none) : jkbGet (kb ++ [(name, p)]) name = some p := by
  induction kb with
  | nil => simp [jkbGet]
  | cons hd tl ih =>
    rcases hd with ⟨k0, v0⟩
    simp only [jkbGet] at h
    by_cases h0 : k0 = name
    · rw [if_pos h0] at h
      exact absurd h (by simp)
    · rw [if_neg h0] at h
      simp only [List.cons_append, jkbGet, if_neg h0]
      exact ih h

theorem jkbGet_jkbSet_self (kb : JKB) (name : String) (p : JProfile) :
    jkbGet (jkbSet kb name p) name = some p := by
  induction kb with
  | nil => simp [jkbSet, jkbGet]
  | cons hd tl ih =>
    rcases hd with ⟨k0, v0⟩
    by_cases h0 : k0 = name
    · subst h0
      simp [jkbSet, jkbGet]
    · simp only [jkbSet, if_neg h0, jkbGet, if_neg h0]
      exact ih

theorem level2Codec_mem (p : Profile) (m : Metadata) (raw : String) (f : Finding)
    (h : f ∈ (level2Codec p m raw).1) :
    f.finding = "Video codec mismatch." ∨
    f.finding = "Video codec missing from metadata." := by
  unfold level2Codec at h
  simp only [] at h
  split_ifs at h
  all_goals simp_all [codecMismatchFinding, codecMissingFinding]

theorem level2Date_mem (p : Profile) (m : Metadata) (raw : String) (f : Finding)
    (h : f ∈ (level2Date p m raw).1) :
    f.finding = "File created before device release." := by
  unfold level2Date at h
  simp only [] at h
  split_ifs at h
  all_goals (try split at h)
  all_goals (try split_ifs at h)
  all_goals simp_all [majorFinding]

theorem level2Codec_filter_missing (p : Profile) (m : Metadata) (raw : String) :
    (level2Codec p m raw).1.filter
      (fun f => f.finding == "Expected metadata tags are missing.") = [] := by
  rw [List.filter_eq_nil_iff]
  intro f hf
  rcases level2Codec_mem p m raw f hf with h | h <;> simp [h]

theorem level2Date_filter_missing (p : Profile) (m : Metadata) (raw : String) :
    (level2Date p m raw).1.filter
      (fun f => f.finding == "Expected metadata tags are missing.") = [] := by
  rw [List.filter_eq_nil_iff]
  intro f hf
  simp [level2Date_mem p m raw f hf]

theorem overallStatus_flagged_iff (nar : List Finding) :
    overallStatus nar = "FLAGGED" ↔
      ∃ f ∈ nar, f.status = "FLAGGED" ∨ f.status = "INCONSISTENCY_DETECTED" := by
  unfold overallStatus
  split
  · rename_i h
    simp only [List.any_eq_true, isFlagStatus, Bool.or_eq_true, beq_iff_eq] at h
    exact iff_of_true rfl h
  · rename_i h
    simp only [List.any_eq_true, isFlagStatus, Bool.or_eq_true, beq_iff_eq] at h
    exact iff_of_false (by decide) h


/-! ## Claim theorems -/

/-- C1: the claim states `analyze` never lets an unhandled exception reach
the caller — in particular that the Tier 3 fingerprint scan cannot fault for
any combination of quantization-table tag value and template.  The code
violates this: at this input (a .jpg whose quantization-table tag is the
truthy non-numeric string "abc", against a knowledge base whose software
profile carries the truthy template `[[]]` of flattened length 0) the file
table and the template both normalize to length 0, the match-percentage
expression divides by `len(qt_values) = 0`, and the resulting
ZeroDivisionError is not caught by the surrounding
`except (ValueError, TypeError)`, so it escapes `analyze`. -/
theorem c1_tier3_division_fault :
    analyze
      [("iPhone 15 Pro", ⟨none, none, ["Make", "LensModel", "GPSLatitude"], none, none⟩),
       ("BadSoft", ⟨none, none, [], some "Software", some [[]]⟩)]
      ".jpg"
      (Except.ok [("EXIF:Software", MVal.mstr "Adobe Photoshop"),
                  ("EXIF:Model", MVal.mstr "iPhone 15 Pro"),
                  ("EXIF:JPEGQTables", MVal.mstr "abc")]) = Except.error () := by
  decide

/-- C2 counterexample: with the model tag "Apple iPhone 15 Pro" and a
knowledge base keyed by the normalized name "iPhone 15 Pro", Tier 2 resolves
the profile (under the normalized name), yet Tier 4 emits
KNOWLEDGE_BASE_CANDIDATE — because Tier 4 looks up the raw model string
without any vendor-prefix normalization.  This refutes the claim that Tier 4
resolves the device identity exactly as Tier 2 does and never reports a
new-device candidate for a model Tier 2 finds. -/
theorem c2_counterexample :
    resolveProfile [("iPhone 15 Pro", ⟨some 2023, none, [], none, none⟩)]
        [("EXIF:Model", MVal.mstr "Apple iPhone 15 Pro")] =
      some ⟨some 2023, none, [], none, none⟩ ∧
    runLevel4 [("iPhone 15 Pro", ⟨some 2023, none, [], none, none⟩)]
        [("EXIF:Model", MVal.mstr "Apple iPhone 15 Pro")] =
      [kbCandidateFinding "Apple iPhone 15 Pro"] := by
  decide

/-- C2 amended: Tier 4 runs whenever `analyze` returns a report (its
findings close the narrative), and it resolves the model tag under the
same aliases as Tier 2 but looks up only the RAW model string, with no
vendor-prefix normalization: it emits KNOWLEDGE_BASE_CANDIDATE iff the raw
name is truthy and absent from the knowledge base, and
KNOWLEDGE_BASE_REVIEW_CANDIDATE iff the raw name is truthy and present. -/
theorem c2_amended_tier4_raw_lookup (kb : KB) (suffix : String)
    (m fm : Metadata) (nar : List Finding) (l1s ov : String)
    (h : analyze kb suffix (Except.ok m) = Except.ok (Report.success nar fm l1s ov)) :
    (∃ pre, nar = pre ++ runLevel4 kb m) ∧
    (pyTruthy (modelAlias m) = true →
      ((kbLookup kb (strVal (modelAlias m))).isNone = true →
        runLevel4 kb m = [kbCandidateFinding (strVal (modelAlias m))]) ∧
      ((kbLookup kb (strVal (modelAlias m))).isSome = true →
        runLevel4 kb m = [kbReviewFinding (strVal (modelAlias m))])) ∧
    (pyTruthy (modelAlias m) = false → runLevel4 kb m = []) := by
  refine ⟨?_, ?_, ?_⟩
  · unfold analyze at h
    simp only [] at h
    cases hmid : midFindings kb m suffix (runLevel1 m).1 with
    | error u => rw [hmid] at h; cases h
    | ok mid =>
      rw [hmid] at h
      injection h with h2
      injection h2 with e1 e2 e3 e4
      exact ⟨(runLevel1 m).2 ++ mid, by rw [← e1, List.append_assoc]⟩
  · intro ht
    constructor
    · intro hn
      cases hk : kbLookup kb (strVal (modelAlias m)) with
      | none => simp [runLevel4, ht, hk]
      | some q => rw [hk] at hn; cases hn
    · intro hs
      cases hk : kbLookup kb (strVal (modelAlias m)) with
      | none => rw [hk] at hs; cases hs
      | some q => simp [runLevel4, ht, hk]
  · intro hf
    simp [runLevel4, hf]

/-- C2 witness: a successful run on empty metadata, where Tier 4 emits
nothing (falsy model) and the narrative ends with Tier 4's findings. -/
theorem c2_witness :
    (∃ pre, [cleanFinding] = pre ++ runLevel4 ([] : KB) ([] : Metadata)) ∧
    (pyTruthy (modelAlias ([] : Metadata)) = true →
      ((kbLookup ([] : KB) (strVal (modelAlias ([] : Metadata)))).isNone = true →
        runLevel4 ([] : KB) ([] : Metadata) =
          [kbCandidateFinding (strVal (modelAlias ([] : Metadata)))]) ∧
      ((kbLookup ([] : KB) (strVal (modelAlias ([] : Metadata)))).isSome = true →
        runLevel4 ([] : KB) ([] : Metadata) =
          [kbReviewFinding (strVal (modelAlias ([] : Metadata)))])) ∧
    (pyTruthy (modelAlias ([] : Metadata)) = false →
      runLevel4 ([] : KB) ([] : Metadata) = []) :=
  c2_amended_tier4_raw_lookup [] "" [] [] [cleanFinding] "CLEAN" "CLEAN" (by decide)

/-- C3: for every report returned by `analyze` on successfully extracted
metadata, `overall_status` is FLAGGED iff some finding of the narrative has
status FLAGGED or INCONSISTENCY_DETECTED, and CLEAN otherwise — so
MAJOR_DISCREPANCY_DETECTED and CONFIRMATION alone leave it CLEAN. -/
theorem c3_overall_status_rule (kb : KB) (suffix : String) (m fm : Metadata)
    (nar : List Finding) (l1s ov : String)
    (h : analyze kb suffix (Except.ok m) = Except.ok (Report.success nar fm l1s ov)) :
    (ov = "FLAGGED" ↔
      ∃ f ∈ nar, f.status = "FLAGGED" ∨ f.status = "INCONSISTENCY_DETECTED") ∧
    ((∀ f ∈ nar, f.status ≠ "FLAGGED" ∧ f.status ≠ "INCONSISTENCY_DETECTED") →
      ov = "CLEAN") := by
  unfold analyze at h
  simp only [] at h
  cases hmid : midFindings kb m suffix (runLevel1 m).1 with
  | error u => rw [hmid] at h; cases h
  | ok mid =>
    rw [hmid] at h
    injection h with h2
    injection h2 with e1 e2 e3 e4
    subst e1
    subst e4
    refine ⟨overallStatus_flagged_iff _, fun hall => ?_⟩
    have hnot : ¬ ((runLevel1 m).2 ++ mid ++ runLevel4 kb m).any isFlagStatus = true := by
      intro hany
      simp only [List.any_eq_true, isFlagStatus, Bool.or_eq_true, beq_iff_eq] at hany
      obtain ⟨f, hf, hst⟩ := hany
      rcases hst with hst | hst
      · exact (hall f hf).1 hst
      · exact (hall f hf).2 hst
    unfold overallStatus
    rw [if_neg hnot]

/-- C3 witness: the rule evaluated on a concrete clean run. -/
theorem c3_witness :
    ("CLEAN" = "FLAGGED" ↔
      ∃ f ∈ [cleanFinding],
        f.status = "FLAGGED" ∨ f.status = "INCONSISTENCY_DETECTED") ∧
    ((∀ f ∈ [cleanFinding],
        f.status ≠ "FLAGGED" ∧ f.status ≠ "INCONSISTENCY_DETECTED") →
      "CLEAN" = "CLEAN") :=
  c3_overall_status_rule [] "" [] [] [cleanFinding] "CLEAN" "CLEAN" (by decide)

/-- C4 counterexample: the claim says null-valued fields of the partial
profile do not overwrite prior values.  But `update_knowledge_base` uses
plain `dict.update`, which assigns every field including nulls: merging
`{release_year: null}` over `{release_year: 2020}` yields a null
release_year, not the preserved 2020 the claim-level overlay predicts. -/
theorem c4_counterexample :
    jkbGet (update_knowledge_base [("X", [("release_year", JVal.jnum 2020)])] "X"
        [("release_year", JVal.jnull)]) "X" =
      some [("release_year", JVal.jnull)] ∧
    specNonNullOverlay [("release_year", JVal.jnum 2020)] [("release_year", JVal.jnull)] =
      [("release_year", JVal.jnum 2020)] ∧
    (some [("release_year", JVal.jnull)] : Option JProfile) ≠
      some [("release_year", JVal.jnum 2020)] := by
  decide

/-- C4 amended: merge(name, p) followed by load yields, for name, the prior
profile overlaid with ALL fields of p — null-valued fields included, which
do overwrite prior values; fields of the prior absent from p are preserved
(`pget p k = none` case); if name was not previously present the resulting
profile equals p. -/
theorem c4_amended_merge_roundtrip (kb : JKB) (name : String)
    (p prior : JProfile) (k : String) (hnd : (p.map Prod.fst).Nodup) :
    (jkbGet kb name = none →
      jkbGet (update_knowledge_base kb name p) name = some p) ∧
    (jkbGet kb name = some prior →
      jkbGet (update_knowledge_base kb name p) name = some (dictUpdate prior p) ∧
      pget (dictUpdate prior p) k =
        (match pget p k with
         | some v => some v
         | none => pget prior k)) := by
  constructor
  · intro h
    unfold update_knowledge_base
    rw [h]
    exact jkbGet_append_self kb name p h
  · intro h
    refine ⟨?_, pget_dictUpdate p hnd prior k⟩
    unfold update_knowledge_base
    rw [h]
    exact jkbGet_jkbSet_self kb name (dictUpdate prior p)

/-- C4 witness: the amended round trip evaluated on a concrete knowledge
base: the null field overwrites, the absent field is preserved. -/
theorem c4_witness :
    (jkbGet ([("X", [("release_year", JVal.jnum 2020)])] : JKB) "X" = none →
      jkbGet (update_knowledge_base [("X", [("release_year", JVal.jnum 2020)])] "X"
        [("release_year", JVal.jnull)]) "X" = some [("release_year", JVal.jnull)]) ∧
    (jkbGet ([("X", [("release_year", JVal.jnum 2020)])] : JKB) "X" =
        some [("release_year", JVal.jnum 2020)] →
      jkbGet (update_knowledge_base [("X", [("release_year", JVal.jnum 2020)])] "X"
          [("release_year", JVal.jnull)]) "X" =
        some (dictUpdate [("release_year", JVal.jnum 2020)] [("release_year", JVal.jnull)]) ∧
      pget (dictUpdate [("release_year", JVal.jnum 2020)] [("release_year", JVal.jnull)])
          "release_year" =
        (match pget [("release_year", JVal.jnull)] "release_year" with
         | some v => some v
         | none => pget [("release_year", JVal.jnum 2020)] "release_year")) :=
  c4_amended_merge_roundtrip [("X", [("release_year", JVal.jnum 2020)])] "X"
    [("release_year", JVal.jnull)] [("release_year", JVal.jnum 2020)]
    "release_year" (by decide)

/-- C9: `analyze` is a pure function of the metadata record and the
knowledge base: two calls with identical metadata and an unchanged
knowledge base return identical reports — the same forensic_narrative
(order and content) and the same analysis_summary. -/
theorem c9_determinism (kb : KB) (suffix : String) (m1 m2 : Metadata)
    (h : m1 = m2) :
    analyze kb suffix (Except.ok m1) = analyze kb suffix (Except.ok m2) := by
  rw [h]

/-- C9 witness. -/
theorem c9_witness :
    analyze ([] : KB) "" (Except.ok ([("EXIF:Software", MVal.mstr "GIMP 2.10")])) =
      analyze ([] : KB) "" (Except.ok ([("EXIF:Software", MVal.mstr "GIMP 2.10")])) :=
  c9_determinism [] "" _ _ rfl


theorem level1Step1_of_parses (cs ms : Option String) (cd md : PyDateTime)
    (hc : parseExifTs (strVal cs) = some cd)
    (hm : parseExifTs (strVal ms) = some md) :
    level1Step1 cs ms =
      (if tsSecs md - tsSecs cd > 60 then some ([mismatchFinding], true, some cd)
       else if tsSecs md < tsSecs cd then some ([orderFinding], true, some cd)
       else some ([], false, some cd)) := by
  unfold level1Step1
  rw [if_pos (by simp [pyTruthy_of_parseExif hc, pyTruthy_of_parseExif hm])]
  split
  · simp_all
  · rename_i cd2 hc2
    rw [hc] at hc2
    injection hc2 with e
    subst e
    split
    · simp_all
    · rename_i md2 hm2
      rw [hm] at hm2
      injection hm2 with e2
      subst e2
      rfl

theorem level1TryBlock_mismatch_iff (cs ms fs : Option String) (cd md : PyDateTime)
    (hc : parseExifTs (strVal cs) = some cd)
    (hm : parseExifTs (strVal ms) = some md) :
    mismatchFinding ∈ (level1TryBlock cs ms fs).1 ↔ tsSecs md - tsSecs cd > 60 := by
  have hstep := level1Step1_of_parses cs ms cd md hc hm
  by_cases hd : tsSecs md - tsSecs cd > 60
  · rw [if_pos hd] at hstep
    refine iff_of_true ?_ hd
    rcases level1Block2_cases cs fs [mismatchFinding] true (some cd) with h2 | h2 <;>
      rw [level1TryBlock_eq_of_step1 cs ms fs _ _ _ hstep, h2] <;> simp
  · rw [if_neg hd] at hstep
    refine iff_of_false ?_ hd
    intro hmem
    by_cases ho : tsSecs md < tsSecs cd
    · rw [if_pos ho] at hstep
      rcases level1Block2_cases cs fs [orderFinding] true (some cd) with h2 | h2 <;>
        rw [level1TryBlock_eq_of_step1 cs ms fs _ _ _ hstep, h2] at hmem <;>
        revert hmem <;> decide
    · rw [if_neg ho] at hstep
      rcases level1Block2_cases cs fs [] false (some cd) with h2 | h2 <;>
        rw [level1TryBlock_eq_of_step1 cs ms fs _ _ _ hstep, h2] at hmem <;>
        revert hmem <;> decide

/-- `runLevel1` unfolded to its components. -/
theorem runLevel1_eq (m : Metadata) :
    runLevel1 m =
      (decide (level1Software m ≠ []) ||
         (level1TryBlock (createStrOf m) (modifyStrOf m) (fileModStrOf m)).2,
       level1Software m ++
         (level1TryBlock (createStrOf m) (modifyStrOf m) (fileModStrOf m)).1 ++
         (if (decide (level1Software m ≠ []) ||
              (level1TryBlock (createStrOf m) (modifyStrOf m) (fileModStrOf m)).2) = true
          then [] else [cleanFinding])) := rfl

/-- C5 counterexample: metadata with no software tag, no file-system tag,
and internal timestamps 30 seconds apart — but with ModifyDate BEFORE
CreateDate.  `|modify - create| = 30 ≤ 60`, yet Tier 1 emits the
FLAGGED illogical-timestamp-order finding (and no CLEAN finding) and
returns flagged = true, refuting the claim's first sentence. -/
theorem c5_counterexample :
    runLevel1 [("EXIF:CreateDate", MVal.mstr "2024:01:01 10:01:00"),
               ("EXIF:ModifyDate", MVal.mstr "2024:01:01 10:00:30")] =
      (true, [orderFinding]) ∧
    parseExifTs "2024:01:01 10:01:00" = some ⟨2024, 1, 1, 10, 1, 0⟩ ∧
    parseExifTs "2024:01:01 10:00:30" = some ⟨2024, 1, 1, 10, 0, 30⟩ ∧
    (tsSecs ⟨2024, 1, 1, 10, 0, 30⟩ - tsSecs ⟨2024, 1, 1, 10, 1, 0⟩).natAbs ≤ 60 := by
  decide

/-- C5 amended: Tier 1 returns flagged = true iff some FLAGGED finding was
emitted, and emits exactly one CLEAN finding iff it emitted no FLAGGED
finding; and for every record lacking an editing-software alias match whose
create/modify timestamps (when present and parsable) satisfy
`0 ≤ modify - create ≤ 60` seconds — nonnegative, not merely of magnitude
at most 60 — and whose file-system discrepancy is at most 24 hours, Tier 1
emits exactly one CLEAN finding and returns flagged = false. -/
theorem c5_amended_tier1_clean (m : Metadata) :
    ((runLevel1 m).1 = true ↔ ∃ f ∈ (runLevel1 m).2, f.status = "FLAGGED") ∧
    (((runLevel1 m).2.filter (fun f => f.status == "CLEAN")).length =
      if (runLevel1 m).1 then 0 else 1) ∧
    ((¬ (pyTruthy (swAliasOf m) = true ∧
        knownEditors.any
          (fun e => containsS (lowerStr (strVal (swAliasOf m))) e) = true)) →
     (∀ cd md, parseExifTs (strVal (createStrOf m)) = some cd →
        parseExifTs (strVal (modifyStrOf m)) = some md →
        0 ≤ tsSecs md - tsSecs cd ∧ tsSecs md - tsSecs cd ≤ 60) →
     (∀ cd fsd, parseExifTs (strVal (createStrOf m)) = some cd →
        parseFsTs (strVal (fileModStrOf m)) = some fsd →
        (tsSecs fsd - tsSecs cd).natAbs ≤ 86400) →
     runLevel1 m = (false, [cleanFinding])) := by
  have hfiff := level1TryBlock_flag_iff (createStrOf m) (modifyStrOf m) (fileModStrOf m)
  have hstat := level1TryBlock_status (createStrOf m) (modifyStrOf m) (fileModStrOf m)
  refine ⟨?_, ?_, ?_⟩
  · rcases level1Software_cases m with h0 | h0
    · cases hb : (level1TryBlock (createStrOf m) (modifyStrOf m) (fileModStrOf m)).2 with
      | false =>
        have hb1 : (level1TryBlock (createStrOf m) (modifyStrOf m) (fileModStrOf m)).1 = [] := by
          by_contra hne
          have hzz := hfiff.mpr hne
          rw [hb] at hzz
          cases hzz
        have hrun : runLevel1 m = (false, [cleanFinding]) := by
          rw [runLevel1_eq, h0, hb1, hb]
          simp
        rw [hrun]
        simp [cleanFinding]
      | true =>
        have hne : (level1TryBlock (createStrOf m) (modifyStrOf m) (fileModStrOf m)).1 ≠ [] :=
          hfiff.mp hb
        have hrun : runLevel1 m =
            (true, (level1TryBlock (createStrOf m) (modifyStrOf m) (fileModStrOf m)).1) := by
          rw [runLevel1_eq, h0, hb]
          simp
        rw [hrun]
        refine iff_of_true rfl ?_
        obtain ⟨f, hf⟩ := List.exists_mem_of_ne_nil _ hne
        exact ⟨f, hf, hstat f hf⟩
    · have hrun : runLevel1 m =
          (true, swFinding (strVal (swAliasOf m)) ::
            (level1TryBlock (createStrOf m) (modifyStrOf m) (fileModStrOf m)).1) := by
        rw [runLevel1_eq, h0]
        simp
      rw [hrun]
      exact iff_of_true rfl ⟨swFinding (strVal (swAliasOf m)), by simp, rfl⟩
  · have hblkf : ((level1TryBlock (createStrOf m) (modifyStrOf m) (fileModStrOf m)).1.filter
        (fun f => f.status == "CLEAN")) = [] := by
      rw [List.filter_eq_nil_iff]
      intro f hf
      simp [hstat f hf]
    rcases level1Software_cases m with h0 | h0
    · cases hb : (level1TryBlock (createStrOf m) (modifyStrOf m) (fileModStrOf m)).2 with
      | false =>
        have hb1 : (level1TryBlock (createStrOf m) (modifyStrOf m) (fileModStrOf m)).1 = [] := by
          by_contra hne
          have hzz := hfiff.mpr hne
          rw [hb] at hzz
          cases hzz
        have hrun : runLevel1 m = (false, [cleanFinding]) := by
          rw [runLevel1_eq, h0, hb1, hb]
          simp
        rw [hrun]
        decide
      | true =>
        have hrun : runLevel1 m =
            (true, (level1TryBlock (createStrOf m) (modifyStrOf m) (fileModStrOf m)).1) := by
          rw [runLevel1_eq, h0, hb]
          simp
        rw [hrun]
        simp [hblkf]
    · have hrun : runLevel1 m =
          (true, swFinding (strVal (swAliasOf m)) ::
            (level1TryBlock (createStrOf m) (modifyStrOf m) (fileModStrOf m)).1) := by
        rw [runLevel1_eq, h0]
        simp
      rw [hrun]
      simp only [List.filter_cons]
      rw [if_neg (by simp [swFinding])]
      simp [hblkf]
  · intro h1 h2 h3
    have hsw : level1Software m = [] := by
      unfold level1Software
      rw [if_neg]
      intro hcontra
      exact h1 ⟨hcontra.1, hcontra.2⟩
    have hcleanblk := level1TryBlock_clean (createStrOf m) (modifyStrOf m) (fileModStrOf m) h2 h3
    rw [runLevel1_eq, hsw, hcleanblk]
    simp

/-- C5 witness: the amended clean path on concrete metadata whose
timestamps are 30 seconds apart in the right order. -/
theorem c5_witness :
    runLevel1 [("EXIF:CreateDate", MVal.mstr "2024:01:01 10:00:00"),
               ("EXIF:ModifyDate", MVal.mstr "2024:01:01 10:00:30")] =
      (false, [cleanFinding]) := by
  apply (c5_amended_tier1_clean _).2.2
  · decide
  · intro cd md hc hm
    rw [show parseExifTs (strVal (createStrOf
        [("EXIF:CreateDate", MVal.mstr "2024:01:01 10:00:00"),
         ("EXIF:ModifyDate", MVal.mstr "2024:01:01 10:00:30")])) =
      some ⟨2024, 1, 1, 10, 0, 0⟩ from by decide] at hc
    rw [show parseExifTs (strVal (modifyStrOf
        [("EXIF:CreateDate", MVal.mstr "2024:01:01 10:00:00"),
         ("EXIF:ModifyDate", MVal.mstr "2024:01:01 10:00:30")])) =
      some ⟨2024, 1, 1, 10, 0, 30⟩ from by decide] at hm
    injection hc with e1
    injection hm with e2
    subst e1
    subst e2
    decide
  · intro cd fsd hc hf
    rw [show parseFsTs (strVal (fileModStrOf
        [("EXIF:CreateDate", MVal.mstr "2024:01:01 10:00:00"),
         ("EXIF:ModifyDate", MVal.mstr "2024:01:01 10:00:30")])) = none from by decide] at hf
    cases hf

/-- C6 counterexample: the create timestamp parses, the modify timestamp is
present but unparsable, and the file-system timestamp is present, parsable
and more than 24 hours from the create date — check 3's own condition
holds.  The claim says the parse failure skips only the failing check and
check 3 is still evaluated (which would flag); but the single `try` block
aborts on the modify-date ValueError, so Tier 1 emits only the CLEAN
finding and never evaluates check 3. -/
theorem c6_counterexample :
    runLevel1 [("EXIF:CreateDate", MVal.mstr "2024:01:01 10:00:00"),
               ("EXIF:ModifyDate", MVal.mstr "garbage"),
               ("File:FileModifyDate", MVal.mstr "2026:01:01 10:00:00-05:00")] =
      (false, [cleanFinding]) ∧
    parseExifTs "garbage" = none ∧
    parseExifTs "2024:01:01 10:00:00" = some ⟨2024, 1, 1, 10, 0, 0⟩ ∧
    parseFsTs "2026:01:01 10:00:00-05:00" = some ⟨2026, 1, 1, 10, 0, 0⟩ ∧
    86400 < (tsSecs ⟨2026, 1, 1, 10, 0, 0⟩ - tsSecs ⟨2024, 1, 1, 10, 0, 0⟩).natAbs := by
  decide

/-- C6 amended: Tier 1's software check is independent, but the two
timestamp checks share one try block: when the create and modify tags are
both present (truthy) and either fails to parse, the whole block yields no
findings — check 3 is not evaluated even when its own inputs are present,
parsable and beyond the 24-hour bound.  A parse failure in check 3's own
file-system parse, by contrast, keeps the findings of the create/modify
comparison and skips only check 3. -/
theorem c6_amended_try_block (cs ms fs : Option String) :
    (pyTruthy cs = true → pyTruthy ms = true →
      (parseExifTs (strVal cs) = none ∨ parseExifTs (strVal ms) = none) →
      level1TryBlock cs ms fs = ([], false)) ∧
    (parseFsTs (strVal fs) = none →
      level1TryBlock cs ms fs =
        (match level1Step1 cs ms with
         | none => ([], false)
         | some (f1, fl1, _) => (f1, fl1))) := by
  constructor
  · intro hcs hms hp
    have hstep : level1Step1 cs ms = none := by
      unfold level1Step1
      rw [if_pos (by simp [hcs, hms])]
      rcases hp with hp | hp
      · rw [hp]
      · split
        · rfl
        · rw [hp]
    unfold level1TryBlock
    rw [hstep]
  · intro hf
    cases hstep : level1Step1 cs ms with
    | none => rw [level1TryBlock_none cs ms fs hstep]
    | some trip =>
      rcases trip with ⟨f1, fl1, cdOpt⟩
      rw [level1TryBlock_eq_of_step1 cs ms fs _ _ _ hstep]
      unfold level1Block2
      split
      · split
        · rfl
        · rename_i fsd hpf
          rw [hf] at hpf
          cases hpf
      · rfl

/-- C6 witness: the amended statement applied at the counterexample's
concrete tag values. -/
theorem c6_witness :
    level1TryBlock (some "2024:01:01 10:00:00") (some "garbage")
      (some "2026:01:01 10:00:00-05:00") = ([], false) :=
  (c6_amended_try_block (some "2024:01:01 10:00:00") (some "garbage")
    (some "2026:01:01 10:00:00-05:00")).1 (by decide) (by decide)
    (Or.inr (by decide))

/-- C7: when both internal timestamps parse (their trailing sub-second or
timezone suffix discarded first), Tier 1 emits the
significant-timestamp-mismatch FLAGGED finding iff the parsed delta
strictly exceeds 60 seconds: a delta of exactly 60 does not flag, and any
delta above 60 — such as the claim's 60.1 — does (strict `>`). -/
theorem c7_sixty_second_boundary (m : Metadata) (cd md : PyDateTime)
    (hc : parseExifTs (strVal (createStrOf m)) = some cd)
    (hm : parseExifTs (strVal (modifyStrOf m)) = some md) :
    mismatchFinding ∈ (runLevel1 m).2 ↔ tsSecs md - tsSecs cd > 60 := by
  have hblk := level1TryBlock_mismatch_iff (createStrOf m) (modifyStrOf m)
    (fileModStrOf m) cd md hc hm
  rw [runLevel1_eq]
  simp only [List.mem_append]
  constructor
  · rintro ((hsw | hb) | hite)
    · rcases level1Software_cases m with h0 | h0 <;> rw [h0] at hsw
      · cases hsw
      · simp only [List.mem_singleton] at hsw
        have hne := congrArg Finding.finding hsw
        simp only [mismatchFinding, swFinding] at hne
        exact absurd hne (by decide)
    · exact hblk.mp hb
    · revert hite
      split
      · intro hite
        cases hite
      · intro hite
        simp only [List.mem_singleton] at hite
        exact absurd (congrArg Finding.finding hite) (by decide)
  · intro hd
    exact Or.inl (Or.inr (hblk.mpr hd))

/-- C7 witness: with suffixes discarded, a parsed delta of exactly 60
seconds (raw tags "2024:01:01 10:00:00.9+03:00" and
"2024:01:01 10:01:00.5") does not produce the mismatch finding, while a
parsed delta of 61 seconds does. -/
theorem c7_witness :
    mismatchFinding ∉ (runLevel1 [("EXIF:CreateDate", MVal.mstr "2024:01:01 10:00:00.9+03:00"),
        ("EXIF:ModifyDate", MVal.mstr "2024:01:01 10:01:00.5")]).2 ∧
    mismatchFinding ∈ (runLevel1 [("EXIF:CreateDate", MVal.mstr "2024:01:01 10:00:00"),
        ("EXIF:ModifyDate", MVal.mstr "2024:01:01 10:01:01")]).2 := by
  constructor
  · intro h
    have hd := (c7_sixty_second_boundary _ ⟨2024, 1, 1, 10, 0, 0⟩ ⟨2024, 1, 1, 10, 1, 0⟩
      (by decide) (by decide)).mp h
    exact absurd hd (by decide)
  · exact (c7_sixty_second_boundary _ ⟨2024, 1, 1, 10, 0, 0⟩ ⟨2024, 1, 1, 10, 1, 1⟩
      (by decide) (by decide)).mpr (by decide)

/-- C8: in Tier 2 (with a resolved profile), an expected tag counts as
present iff some metadata key ends with ":tag" case-insensitively — the
missing set is exactly that filter; when at most 2 tags are missing no
missing-tags finding is emitted, and when 3 or more are missing exactly one
INCONSISTENCY_DETECTED finding is emitted, listing at most the first 3
missing tags. -/
theorem c8_missing_tag_threshold (kb : KB) (m : Metadata) (p : Profile)
    (hres : resolveProfile kb m = some p) :
    missingTags p m = p.expected_metadata_tags.filter (fun tag =>
      ! (mkeys m).any (fun k => endsWithS (lowerStr k) (":" ++ lowerStr tag))) ∧
    ((missingTags p m).length ≤ 2 →
      ((runLevel2 kb m).2.filter
        (fun f => f.finding == "Expected metadata tags are missing.")) = []) ∧
    (2 < (missingTags p m).length →
      ((runLevel2 kb m).2.filter
        (fun f => f.finding == "Expected metadata tags are missing.")) =
        [missingTagsFinding (strVal (modelAlias m)) ((missingTags p m).take 3)] ∧
      ((missingTags p m).take 3).length ≤ 3) := by
  refine ⟨rfl, ?_, ?_⟩
  · intro hle
    unfold runLevel2
    split
    · rename_i heq
      rw [hres] at heq
      cases heq
    · rename_i p2 heq
      rw [hres] at heq
      injection heq with e
      subst e
      simp only []
      rw [List.filter_append, List.filter_append, level2Codec_filter_missing,
        level2Date_filter_missing]
      rw [if_neg (by omega)]
      simp
  · intro hgt
    constructor
    · unfold runLevel2
      split
      · rename_i heq
        rw [hres] at heq
        cases heq
      · rename_i p2 heq
        rw [hres] at heq
        injection heq with e
        subst e
        simp only []
        rw [List.filter_append, List.filter_append, level2Codec_filter_missing,
          level2Date_filter_missing]
        rw [if_pos (by omega)]
        simp only [List.nil_append, List.append_nil, List.filter_cons]
        rw [if_pos (by simp [missingTagsFinding])]
        simp
    · simp only [List.length_take]
      omega

/-- C8 witness: a profile expecting three tags, all absent — exactly one
missing-tags finding listing the three. -/
theorem c8_witness :
    ((runLevel2 [("M1", (⟨none, none, ["A", "B", "C"], none, none⟩ : Profile))]
        [("EXIF:Model", MVal.mstr "M1")]).2.filter
      (fun f => f.finding == "Expected metadata tags are missing.")) =
      [missingTagsFinding "M1" ["A", "B", "C"]] := by
  have h := (c8_missing_tag_threshold
    [("M1", (⟨none, none, ["A", "B", "C"], none, none⟩ : Profile))]
    [("EXIF:Model", MVal.mstr "M1")]
    ⟨none, none, ["A", "B", "C"], none, none⟩ (by decide)).2.2 (by decide)
  rw [h.1]
  decide

/-- C10: alias lookups chain on Python truthiness, so an empty-string tag
value is treated as absent: an empty EXIF:Software falls through to
XMP:CreatorTool, and a falsy software alias yields no editing-software
finding; an empty EXIF:Model falls through to QuickTime:Model, and a falsy
model makes Tier 2 report UNKNOWN_DEVICE (displaying N/A) and makes Tier 4
emit no finding at all. -/
theorem c10_empty_string_falsy (kb : KB) (m : Metadata) :
    (mgetStr m "EXIF:Software" = some "" →
      swAliasOf m = mgetStr m "XMP:CreatorTool") ∧
    (pyTruthy (swAliasOf m) = false →
      ∀ f ∈ (runLevel1 m).2, f.finding ≠ "Third-party software tag detected.") ∧
    (mgetStr m "EXIF:Model" = some "" →
      modelAlias m = mgetStr m "QuickTime:Model") ∧
    (pyTruthy (modelAlias m) = false →
      runLevel2 kb m = (false, [unknownDeviceFinding "N/A"]) ∧
      runLevel4 kb m = []) := by
  refine ⟨?_, ?_, ?_, ?_⟩
  · intro h
    unfold swAliasOf pyOr
    rw [h]
    simp [pyTruthy]
  · intro h f hf
    have hsw : level1Software m = [] := by
      unfold level1Software
      rw [if_neg]
      intro hcontra
      rw [h] at hcontra
      cases hcontra.1
    rw [runLevel1_eq, hsw] at hf
    simp only [List.nil_append, List.mem_append] at hf
    rcases hf with hf | hf
    · rcases level1TryBlock_mem _ _ _ f hf with h1 | h1 | h1 <;> subst h1 <;> decide
    · revert hf
      split
      · intro hf
        cases hf
      · intro hf
        simp only [List.mem_singleton] at hf
        subst hf
        decide
  · intro h
    unfold modelAlias pyOr
    rw [h]
    simp [pyTruthy]
  · intro h
    constructor
    · simp [runLevel2, resolveProfile, h]
    · simp [runLevel4, h]

/-- C10 witness: both tag values empty. -/
theorem c10_witness :
    swAliasOf [("EXIF:Software", MVal.mstr ""), ("EXIF:Model", MVal.mstr "")] =
      mgetStr [("EXIF:Software", MVal.mstr ""), ("EXIF:Model", MVal.mstr "")]
        "XMP:CreatorTool" ∧
    runLevel2 [] [("EXIF:Software", MVal.mstr ""), ("EXIF:Model", MVal.mstr "")] =
      (false, [unknownDeviceFinding "N/A"]) ∧
    runLevel4 [] [("EXIF:Software", MVal.mstr ""), ("EXIF:Model", MVal.mstr "")] = [] :=
  ⟨(c10_empty_string_falsy [] _).1 (by decide),
   ((c10_empty_string_falsy [] _).2.2.2 (by decide)).1,
   ((c10_empty_string_falsy [] _).2.2.2 (by decide)).2⟩

end AverMeta
